import Mathlib

/-!
Verification of the PyGeodesy core: the `Ellipsoid` model of
`pygeodesy/ellipsoids.py` and the Universal Polar Stereographic (UPS)
helpers of `pygeodesy/ups.py`, shallowly embedded in Lean.

Machine floats are modelled by exact arithmetic: the discrete
classification logic of `upsZoneBand5` over `ℚ`, and the ellipsoid
construction, assertion and curvature formulas over `ℝ`.  The constants
`EPS` (machine epsilon, `2⁻⁵²`), `EPS1 = 1 - EPS` and
`TOL = sqrt(0.1 * EPS)` mirror `pygeodesy.interns.EPS`, `EPS1` and
`ellipsoids._TOL`.
-/

namespace PyGeodesy

/-! ### UPS zone/band/pole classification (`pygeodesy/ups.py`) over `ℚ` -/

/-- The UPS projection pole, `'N'` or `'S'`. -/
inductive Pole
  | N
  | S
  deriving DecidableEq, Repr

/-- The polar band letters `_Bands = ('A', 'B', 'Y', 'Z')` of `ups.py`. -/
inductive PolarBand
  | A
  | B
  | Y
  | Z
  deriving DecidableEq, Repr

/-- Errors surfaced by the UPS helpers: `RangeError` and `_ValueError`. -/
inductive UpsErr
  | range
  | value
  deriving DecidableEq, Repr

/-- `ups._Band(a, b)`: the polar band letter
`_Bands[(0 if a < 0 else 2) + (0 if b < 0 else 1)]`. -/
def _Band (a b : ℚ) : PolarBand :=
  if a < 0 then (if b < 0 then .A else .B) else (if b < 0 then .Y else .Z)

/-- Modelled from the spec: `utmupsBase._hemi` (the `utmupsBase` module is
absent from the sources) maps a latitude to its hemisphere letter,
`'S'` for negative latitude and `'N'` otherwise. -/
def _hemi (lat : ℚ) : Pole :=
  if lat < 0 then .S else .N

/-- Modelled from the spec: `utmupsBase._UPS_LAT_MIN` (absent module), the
southern UPS limit `-79.5°` including the 30-minute UTM overlap. -/
def _UPS_LAT_MIN : ℚ := -(159 / 2)

/-- Modelled from the spec: `utmupsBase._UPS_LAT_MAX` (absent module), the
northern UPS limit `83.5°` including the 30-minute UTM overlap. -/
def _UPS_LAT_MAX : ℚ := 167 / 2

/-- Modelled from the spec: `utmupsBase._UPS_ZONE` (absent module), the
polar pseudo zone `0` per Karney's zone UPS. -/
def _UPS_ZONE : ℕ := 0

/-- Result of `upsZoneBand5`, the `UtmUpsLatLon5Tuple(zone, band, hemipole,
lat, lon)`; `band` is `none` for the empty band `NN`. -/
structure ZoneBand5 where
  zone : ℕ
  band : Option PolarBand
  hemipole : Pole
  lat : ℚ
  lon : ℚ
  deriving DecidableEq, Repr

/-- `ups.upsZoneBand5(lat, lon, strict)`.  Modelled from the spec where the
sources are absent: `parseDMS2` and `_to3zll` pass scalar degrees through
unchanged and the provisional UTM zone they produce (overwritten in both
UPS branches, and irrelevant to the spec's UPS claims) is modelled as the
UPS pseudo zone. -/
def upsZoneBand5 (lat lon : ℚ) (strict : Bool) : Except UpsErr ZoneBand5 :=
  if lat < _UPS_LAT_MIN then
    .ok ⟨_UPS_ZONE, some (_Band lat lon), .S, lat, lon⟩
  else if _UPS_LAT_MAX < lat then
    .ok ⟨_UPS_ZONE, some (_Band lat lon), .N, lat, lon⟩
  else if strict then
    .error .range
  else
    .ok ⟨_UPS_ZONE, none, _hemi lat, lat, lon⟩

/-- The pole assigned by `upsZoneBand5`, `none` on failure. -/
def upsPole (r : Except UpsErr ZoneBand5) : Option Pole :=
  match r with
  | .ok t => some t.hemipole
  | .error _ => none

/-- Whether `upsZoneBand5` raised a `RangeError`. -/
def upsIsRange (r : Except UpsErr ZoneBand5) : Bool :=
  match r with
  | .error .range => true
  | _ => false

/-! ### Ellipsoid model (`pygeodesy/ellipsoids.py`) over `ℝ` -/

noncomputable section

open scoped Classical

/-- `interns.EPS`, the machine epsilon `2⁻⁵²` of IEEE-754 doubles. -/
def EPS : ℝ := 1 / 2 ^ 52

/-- `interns.EPS1 = 1 - EPS`. -/
def EPS1 : ℝ := 1 - EPS

/-- `ellipsoids._TOL = sqrt(0.1 * EPS)`, the cross-check tolerance. -/
def TOL : ℝ := Real.sqrt ((1 / 10) * EPS)

/-- Errors raised during `Ellipsoid` construction: `_ValueError`,
`_AssertionError` and the registry's duplicate-name error. -/
inductive EllErr
  | value
  | assert
  | naming
  deriving DecidableEq, Repr

/-- `ellipsoids.a_b2f(a, b)`: flattening `(a - b) / a` with the
`_spherical_a_b` and `_spherical` near-spherical/invalid snaps to `0`. -/
def a_b2f (a b : ℝ) : ℝ :=
  let f := if a < EPS ∨ b < EPS ∨ |a - b| < EPS then 0 else (a - b) / a
  if |f| < EPS ∨ EPS1 < f then 0 else f

/-- `ellipsoids.f2f_(f)`: inverse flattening `1 / f` with the `_spherical`
and `_spherical_` snaps to `0` (the latter per the documented rule
`abs(f_) > 1 / EPS` is forced to `0`). -/
def f2f_ (f : ℝ) : ℝ :=
  let f_ := if |f| < EPS ∨ EPS1 < f then 0 else 1 / f
  if |f_| < EPS ∨ 1 / EPS < |f_| then 0 else f_

/-- `ellipsoids.a_f_2b(a, f_)`: polar radius `a * (f_ - 1) / f_`, or `a`
when `_spherical_(f_)`. -/
def a_f_2b (a f_ : ℝ) : ℝ :=
  if |f_| < EPS ∨ 1 / EPS < |f_| then a else a * (f_ - 1) / f_

/-- `ellipsoids.f2e2(f)`: first eccentricity squared `f * (2 - f)`, or `0`
when `_spherical(f)`. -/
def f2e2 (f : ℝ) : ℝ :=
  if |f| < EPS ∨ EPS1 < f then 0 else f * (2 - f)

/-- `ellipsoids.a_b2e2(a, b)`: first eccentricity squared
`1 - (b / a)²`, or `0` when `_spherical_a_b(a, b)`. -/
def a_b2e2 (a b : ℝ) : ℝ :=
  if a < EPS ∨ b < EPS ∨ |a - b| < EPS then 0 else 1 - (b / a) ^ 2

/-- The state of an `Ellipsoid` after `__init__`: equatorial radius `a`,
polar radius `b`, flattening `f` and inverse flattening `f_`. -/
structure Ellipsoid where
  a : ℝ
  b : ℝ
  f : ℝ
  f_ : ℝ

/-- `Ellipsoid.isSpherical`: the model is spherical iff `f == 0`. -/
def Ellipsoid.isSpherical (E : Ellipsoid) : Prop := E.f = 0

/-- The memoized `Ellipsoid.e2` value: `_assert` returns
`f2e2(f) if self.f else 0`. -/
def e2val (E : Ellipsoid) : ℝ :=
  if E.f = 0 then 0 else f2e2 E.f

/-- The memoized `Ellipsoid.e12` value: `_assert` returns
`1 - e2 if self.f else 1`. -/
def e12val (E : Ellipsoid) : ℝ :=
  if E.f = 0 then 1 else 1 - e2val E

/-- The memoized `Ellipsoid.b_a` value: `_assert` returns
`1 - f if self.f else 1`. -/
def b_aval (E : Ellipsoid) : ℝ :=
  if E.f = 0 then 1 else 1 - E.f

/-- `Ellipsoid.b2_a2 = b_a**2 if self.f else 1`. -/
def b2_a2val (E : Ellipsoid) : ℝ :=
  if E.f = 0 then 1 else (b_aval E) ^ 2

/-- `Ellipsoid.a2_b2 = a_b**2 if self.f else 1` with `a_b = a / b`. -/
def a2_b2val (E : Ellipsoid) : ℝ :=
  if E.f = 0 then 1 else (E.a / E.b) ^ 2

/-- `basics.copysign(x, y)`: the magnitude of `x` with the sign of `y`
(Python `math.copysign`; the `basics` module is absent from the sources,
the semantics is that of the C library function it wraps). -/
def copysign (x y : ℝ) : ℝ :=
  if y < 0 then -|x| else |x|

/-- The memoized `Ellipsoid.e` value, `sqrt(self.e2abs) if self.f else 0`
with `e2abs = abs(e2)`. -/
def eVal (E : Ellipsoid) : ℝ :=
  if E.f = 0 then 0 else Real.sqrt |e2val E|

/-- `Ellipsoid.es = copysign(self.e, self.f)`. -/
def esVal (E : Ellipsoid) : ℝ :=
  copysign (eVal E) E.f

/-- `Ellipsoid.R1`, the IUGG mean earth radius, via `_f_late`: for oblate
`(a + a + b) / 3`, for prolate `_f_a_b` is applied to the swapped pair
`(b, a)`, and for spherical the result is `a`. -/
def R1val (E : Ellipsoid) : ℝ :=
  if 0 < E.f then (E.a + E.a + E.b) / 3
  else if E.f < 0 then (E.b + E.b + E.a) / 3
  else E.a

/-- Stage one of `Ellipsoid.__init__` (the `try` block) once `a`, `b` and
`f_` are known: compute `f = a_b2f(a, b)`, apply the spherical collapse
`abs(f) < EPS or a == b or not f_`, and the `f > EPS1` sanity check. -/
def ellipsoidFields2 (a b f_ : ℝ) : Except EllErr Ellipsoid :=
  let f := a_b2f a b
  if |f| < EPS ∨ a = b ∨ f_ = 0 then .ok ⟨a, a, 0, 0⟩
  else if EPS1 < f then .error .value
  else .ok ⟨a, b, f, f_⟩

/-- The `elif f_:` / `else:` arms of `Ellipsoid.__init__`: either derive
`b = a_f_2b(a, f_)` (validated like `Radius_`, modelled from the spec as
rejecting non-positive radii) or fall back to the spherical `b = a`,
`f = f_ = 0`. -/
def ellipsoidFieldsF (a : ℝ) (f_? : Option ℝ) : Except EllErr Ellipsoid :=
  match f_? with
  | some f_ =>
    if f_ = 0 then ellipsoidFields2 a a 0
    else
      let b := a_f_2b a f_
      if b ≤ 0 then .error .value else ellipsoidFields2 a b f_
  | none => ellipsoidFields2 a a 0

/-- The value-checking stage of `Ellipsoid.__init__(a, b, f_)`.  `Radius_`
(absent `units` module) is modelled from the spec: non-positive radii are
rejected with a `ValueError`-kind failure.  A supplied `b == 0` is falsy
in Python, so `if b:` falls through to the `elif f_:` arm; a supplied
`f_` is kept as given (only `f_ is None` triggers `f2f_`). -/
def ellipsoidFields (a : ℝ) (b? f_? : Option ℝ) : Except EllErr Ellipsoid :=
  if a ≤ 0 then .error .value
  else
    match b? with
    | some b =>
      if b = 0 then ellipsoidFieldsF a f_?
      else if b ≤ 0 then .error .value
      else
        ellipsoidFields2 a b (match f_? with | none => f2f_ (a_b2f a b) | some v => v)
    | none => ellipsoidFieldsF a f_?

/-- The `_assert` cross-checks run at the end of `Ellipsoid.__init__`:
`1/f` vs `f_` and `1/f_` vs `f` (both within `_TOL`, only when `f` and
`f_` are both nonzero), then `b2_a2` vs `e12` within `EPS`, whose lazy
evaluation also runs the `b_a`, `e2` and `e12` `_assert`s (within
`_TOL`). -/
def ellipsoidChecks (E : Ellipsoid) : Except EllErr Unit :=
  if (E.f ≠ 0 ∧ E.f_ ≠ 0) ∧ TOL < |E.f_ - 1 / E.f| then .error .assert
  else if (E.f ≠ 0 ∧ E.f_ ≠ 0) ∧ TOL < |E.f - 1 / E.f_| then .error .assert
  else if TOL < |(1 - E.f) - E.b / E.a| then .error .assert
  else if TOL < |f2e2 E.f - a_b2e2 E.a E.b| then .error .assert
  else if TOL < |(1 - e2val E) - (1 - E.f) ^ 2| then .error .assert
  else if EPS < |e12val E - b2_a2val E| then .error .assert
  else .ok ()

/-- `Ellipsoid.__init__` without the registry: field normalization
followed by the `_assert` cross-checks. -/
def ellipsoidInit (a : ℝ) (b? f_? : Option ℝ) : Except EllErr Ellipsoid :=
  match ellipsoidFields a b? f_? with
  | .error e => .error e
  | .ok E =>
    match ellipsoidChecks E with
    | .error e => .error e
    | .ok _ => .ok E

/-- `Ellipsoid.__init__` with the `Ellipsoids` registry (modelled from the
spec, the `named` module being absent: registration under a fresh name,
duplicate name ⇒ naming failure).  As in the source, `self._register`
runs after the value checks but before the `_assert` cross-checks. -/
def ellipsoidInitReg (reg : List String) (nm : String) (a : ℝ)
    (b? f_? : Option ℝ) : Except EllErr Ellipsoid × List String :=
  match ellipsoidFields a b? f_? with
  | .error e => (.error e, reg)
  | .ok E =>
    if nm ∈ reg then (.error .naming, reg)
    else
      match ellipsoidChecks E with
      | .error e => (.error e, nm :: reg)
      | .ok _ => (.ok E, nm :: reg)

/-! ### Radii of curvature (`Ellipsoid.roc2_`, `Ellipsoid.e2s2`) -/

/-- The quantity `W² = 1 - e2·sin²(φ)` of the spec's radius-of-curvature
formulas. -/
def W2 (E : Ellipsoid) (φ : ℝ) : ℝ :=
  1 - e2val E * Real.sin φ ^ 2

/-- `Ellipsoid.roc2_(phi)`: `a = abs(phi)`; `r = e2s2(sin(a) if a < π/2
else 1)` where `e2s2(s) = 1 - e2·s²` raises a `ValueError` when negative;
then `(0, 0)` if `r < EPS`, else `(m, n)` with `n = a / sqrt(r)` and
`m = n·e12 / r` (the `Curvature2Tuple(meridional, prime_vertical)`). -/
def roc2_ (E : Ellipsoid) (φ : ℝ) : Except EllErr (ℝ × ℝ) :=
  let a' := |φ|
  let s := if a' < Real.pi / 2 then Real.sin a' else 1
  let r := 1 - e2val E * s ^ 2
  if r < 0 then .error .value
  else if r < EPS then .ok (0, 0)
  else .ok (E.a / Real.sqrt r * e12val E / r, E.a / Real.sqrt r)

/-! ### UPS point scale factor (`ups._scale`) -/

/-- `fmath.hypot1(x) = sqrt(1 + x²)` (the `fmath` module is absent from
the sources; this is its documented meaning). -/
def hypot1 (x : ℝ) : ℝ :=
  Real.sqrt (1 + x ^ 2)

/-- `ups._scale(E, rho, tau)`: with `t = hypot1(tau)`, the point scale
factor `(rho / E.a) * t * sqrt(E.e12 + E.e2 / t**2)`. -/
def _scale (E : Ellipsoid) (rho tau : ℝ) : ℝ :=
  let t := hypot1 tau
  rho / E.a * t * Real.sqrt (e12val E + e2val E / t ^ 2)

/-- The scale-factor formula as written in the spec:
`k = (ρ/a)·sqrt(1+tan²lat)·sqrt(e12 + e2/tan²lat)`. -/
def _scaleSpec (E : Ellipsoid) (rho tau : ℝ) : ℝ :=
  rho / E.a * Real.sqrt (1 + tau ^ 2) * Real.sqrt (e12val E + e2val E / tau ^ 2)

/-! ### Conformal latitude (`Ellipsoid.es_taupf`, `Ellipsoid.es_tauf`) -/

/-- `math.atanh`, the real inverse hyperbolic tangent
`log((1 + x) / (1 - x)) / 2`. -/
def atanh (x : ℝ) : ℝ :=
  Real.log ((1 + x) / (1 - x)) / 2

/-- `Ellipsoid.es_atanh(x)`: `e·atanh(e·x)` for oblate, `-(e·atan(e·x))`
for prolate, `0` for spherical. -/
def es_atanh (E : Ellipsoid) (x : ℝ) : ℝ :=
  if 0 < E.f then eVal E * atanh (eVal E * x)
  else if E.f < 0 then -(eVal E * Real.arctan (eVal E * x))
  else 0

/-- `Ellipsoid.es_taupf(tau)`, Karney's equations (7)-(9): with
`t = hypot1(tau)` and `s = sinh(es_atanh(tau / t))`, the value
`hypot1(s)·tau - s·t`. -/
def es_taupf (E : Ellipsoid) (tau : ℝ) : ℝ :=
  let t := hypot1 tau
  let s := Real.sinh (es_atanh E (tau / t))
  hypot1 s * tau - s * t

/-- The `es_tauf` convergence tolerance `max(abs(taup), 1) * _TOL`. -/
def tauTol (taup : ℝ) : ℝ :=
  max |taup| 1 * TOL

/-- One Newton increment of `es_tauf`: with `a = es_taupf(t)`, the update
`d = (taup - a)·(e + t²) / (hypot1(t)·hypot1(a))` where `e = a2_b2`. -/
def tauD (E : Ellipsoid) (taup t : ℝ) : ℝ :=
  let a := es_taupf E t
  (taup - a) * (a2_b2val E + t ^ 2) / (hypot1 t * hypot1 a)

/-- The `for _ in range(9)` loop of `es_tauf`, with explicit fuel: each
step adds the increment `d` to `t` (the `Fsum` accumulator is exact in
real arithmetic) and breaks as soon as `abs(d) < tol`.  Returns the final
`t` together with the number of updates performed. -/
def tauLoop (E : Ellipsoid) (taup tol : ℝ) : ℕ → ℝ → ℝ × ℕ
  | 0, t => (t, 0)
  | n + 1, t =>
    let d := tauD E taup t
    if |d| < tol then (t + d, 1)
    else ((tauLoop E taup tol n (t + d)).1, (tauLoop E taup tol n (t + d)).2 + 1)

/-- `Ellipsoid.es_tauf(taup)`, Karney's equations (19)-(21): Newton
iteration from the starting guess `t = taup * a2_b2` (the geocentric
latitude), at most 9 updates, returning the last iterate in every case. -/
def es_tauf (E : Ellipsoid) (taup : ℝ) : ℝ :=
  (tauLoop E taup (tauTol taup) 9 (taup * a2_b2val E)).1

end

/-! ### Helper lemmas -/

section

open scoped Classical

theorem EPS_pos : (0 : ℝ) < EPS := by
  norm_num [EPS]

theorem TOL_nonneg : (0 : ℝ) ≤ TOL :=
  Real.sqrt_nonneg _

theorem TOL_lt_one : TOL < 1 := by
  rw [TOL]
  have h := (Real.sqrt_lt' one_pos (x := (1 / 10) * EPS)).mpr (by norm_num [EPS])
  simpa using h

end

/-! ### C2: UPS zone/band/pole classification -/

/-- C2 counterexample: at the boundary latitude `-79.5` (which satisfies
`lat ≤ -79.5`), strict `upsZoneBand5` raises a `RangeError` instead of
assigning pole `S`, because the source compares with strict `<`. -/
theorem upsZoneBand5_boundary_cex :
    ((-(159 / 2) : ℚ) ≤ -(159 / 2))
  ∧ upsZoneBand5 (-(159 / 2)) 0 true = .error .range := by
  refine ⟨le_refl _, ?_⟩
  have h1 : ¬((-(159 / 2) : ℚ) < _UPS_LAT_MIN) := by
    simp [_UPS_LAT_MIN]
  have h2 : ¬(_UPS_LAT_MAX < (-(159 / 2) : ℚ)) := by
    norm_num [_UPS_LAT_MAX]
  simp [upsZoneBand5, h1, h2]

/-- C2 amended: `upsZoneBand5` assigns pole `S` exactly when
`lat < -79.5` and pole `N` exactly when `lat > 83.5`; with `strict=True`
it raises a range-kind error exactly when `-79.5 ≤ lat ≤ 83.5`, and with
`strict=False` it never raises, falling back to the hemisphere of the
latitude sign. -/
theorem upsZoneBand5_classification (lat lon : ℚ) :
    upsPole (upsZoneBand5 lat lon true) =
      (if lat < _UPS_LAT_MIN then some Pole.S
       else if _UPS_LAT_MAX < lat then some Pole.N else none)
  ∧ upsIsRange (upsZoneBand5 lat lon true) =
      (decide (_UPS_LAT_MIN ≤ lat) && decide (lat ≤ _UPS_LAT_MAX))
  ∧ upsIsRange (upsZoneBand5 lat lon false) = false
  ∧ upsPole (upsZoneBand5 lat lon false) =
      some (if lat < _UPS_LAT_MIN then Pole.S
            else if _UPS_LAT_MAX < lat then Pole.N else _hemi lat) := by
  by_cases h1 : lat < _UPS_LAT_MIN
  · simp [upsZoneBand5, upsPole, upsIsRange, h1, not_le.mpr h1]
  · by_cases h2 : _UPS_LAT_MAX < lat
    · simp [upsZoneBand5, upsPole, upsIsRange, h1, h2, not_le.mpr h2]
    · simp [upsZoneBand5, upsPole, upsIsRange, h1, h2,
            not_lt.mp h1, not_lt.mp h2]

/-! ### C3: UPS point scale factor -/

section

open scoped Classical

/-- The flattening `1/2` is not snapped by `_spherical`, so
`f2e2 (1/2) = 3/4`. -/
theorem f2e2_half : f2e2 (1 / 2) = 3 / 4 := by
  have h : ¬(|(1 / 2 : ℝ)| < EPS ∨ EPS1 < (1 / 2 : ℝ)) := by
    rw [abs_of_pos (by norm_num : (0 : ℝ) < 1 / 2)]
    norm_num [EPS, EPS1]
  rw [f2e2, if_neg h]
  norm_num

/-- C3 counterexample: on the ellipsoid with `a = 1`, `f = 1/2` (so
`e2 = 3/4`, `e12 = 1/4`), at `rho = 1` and `tan(lat) = 1`, the point
scale factor computed by `ups._scale` differs from the spec's formula
`(ρ/a)·sqrt(1+tan²lat)·sqrt(e12 + e2/tan²lat)`: the code divides `e2` by
`hypot1(tau)² = 1 + tan²lat`, not by `tan²lat`. -/
theorem upsScale_spec_cex :
    _scale ⟨1, 1 / 2, 1 / 2, 2⟩ 1 1 ≠ _scaleSpec ⟨1, 1 / 2, 1 / 2, 2⟩ 1 1 := by
  have he2 : e2val ⟨1, 1 / 2, 1 / 2, 2⟩ = 3 / 4 := by
    rw [e2val, if_neg (by norm_num)]
    exact f2e2_half
  have he12 : e12val ⟨1, 1 / 2, 1 / 2, 2⟩ = 1 / 4 := by
    rw [e12val, if_neg (by norm_num), he2]
    norm_num
  intro h
  simp only [_scale, _scaleSpec, he2, he12, hypot1] at h
  rw [Real.sq_sqrt (by norm_num : (0 : ℝ) ≤ 1 + 1 ^ 2)] at h
  norm_num at h
  rw [div_eq_one_iff_eq (Real.sqrt_pos.mpr (by norm_num)).ne'] at h
  have := (Real.sqrt_inj (by norm_num) (by norm_num)).mp h
  norm_num at this

/-- C3 amended: for every ellipsoid, radial distance `rho` and latitude
with `tau = tan(lat)`, the UPS point scale factor computed by `_scale`
equals `(ρ/a)·sqrt(1+tan²lat)·sqrt(e12 + e2/(1+tan²lat))`. -/
theorem upsScale_formula (E : Ellipsoid) (rho tau : ℝ) :
    _scale E rho tau =
      rho / E.a * Real.sqrt (1 + tau ^ 2) *
        Real.sqrt (e12val E + e2val E / (1 + tau ^ 2)) := by
  rw [_scale, hypot1, Real.sq_sqrt (by positivity)]

/-! ### C4: the conformal-latitude Newton iteration -/

/-- The `es_tauf` loop never performs more updates than its fuel. -/
theorem tauLoop_count_le (E : Ellipsoid) (taup tol : ℝ) :
    ∀ (n : ℕ) (t : ℝ), (tauLoop E taup tol n t).2 ≤ n := by
  intro n
  induction n with
  | zero => intro t; simp [tauLoop]
  | succ n ih =>
    intro t
    simp only [tauLoop]
    split
    · simp
    · simpa using Nat.succ_le_succ (ih _)

/-- C4: for every ellipsoidal model and every `taup`, `es_tauf` is the
value of the bounded Newton loop started at the guess
`taup * a2_b2 = taup * a²/b²` with fuel 9; the loop performs at most 9
updates; its tolerance is `max(|taup|, 1) * sqrt(0.1 * EPS)`; and every
step stops immediately once the update magnitude drops below the
tolerance.  In particular `es_tauf` is a total function that returns the
latest iterate instead of failing on non-convergence. -/
theorem es_tauf_newton (E : Ellipsoid) (taup : ℝ) :
    es_tauf E taup = (tauLoop E taup (tauTol taup) 9 (taup * a2_b2val E)).1
  ∧ (tauLoop E taup (tauTol taup) 9 (taup * a2_b2val E)).2 ≤ 9
  ∧ tauTol taup = max |taup| 1 * Real.sqrt ((1 / 10) * EPS)
  ∧ ∀ (n : ℕ) (t : ℝ),
      tauLoop E taup (tauTol taup) (n + 1) t =
        (if |tauD E taup t| < tauTol taup then (t + tauD E taup t, 1)
         else ((tauLoop E taup (tauTol taup) n (t + tauD E taup t)).1,
               (tauLoop E taup (tauTol taup) n (t + tauD E taup t)).2 + 1)) := by
  refine ⟨rfl, tauLoop_count_le E taup (tauTol taup) 9 _, rfl, ?_⟩
  intro n t
  simp [tauLoop]

/-! ### Construction helper lemmas -/

/-- `a_b2f` snaps every near-spherical flattening: a result smaller than
`EPS` in magnitude is exactly `0`. -/
theorem a_b2f_eq_zero {a b : ℝ} (h : |a_b2f a b| < EPS) : a_b2f a b = 0 := by
  rw [a_b2f] at h ⊢
  by_cases hs : |(if a < EPS ∨ b < EPS ∨ |a - b| < EPS then 0 else (a - b) / a : ℝ)| < EPS ∨
      EPS1 < (if a < EPS ∨ b < EPS ∨ |a - b| < EPS then 0 else (a - b) / a : ℝ)
  · exact if_pos hs
  · rw [if_neg hs] at h
    exact absurd (Or.inl h) hs

/-- `a_b2f` snaps a degenerate flattening `(a - b)/a > EPS1` to `0`. -/
theorem a_b2f_snap {a b : ℝ} (h : EPS1 < (a - b) / a) : a_b2f a b = 0 := by
  rw [a_b2f]
  by_cases h0 : a < EPS ∨ b < EPS ∨ |a - b| < EPS
  · rw [if_pos (by rw [if_pos h0]; exact Or.inl (by simpa using EPS_pos))]
  · rw [if_pos (by rw [if_neg h0]; exact Or.inr h)]

/-- When the computed flattening is `0`, stage one of `__init__` collapses
to the spherical model `(a, a, 0, 0)`. -/
theorem ellipsoidFields2_spherical {a b : ℝ} (f_ : ℝ) (h : a_b2f a b = 0) :
    ellipsoidFields2 a b f_ = .ok ⟨a, a, 0, 0⟩ := by
  rw [ellipsoidFields2, if_pos]
  rw [h]
  exact Or.inl (by simpa using EPS_pos)

/-- The `_assert` cross-checks all pass on a spherical model `(a, a, 0, 0)`
with nonzero radius. -/
theorem ellipsoidChecks_spherical {a : ℝ} (ha : a ≠ 0) :
    ellipsoidChecks ⟨a, a, 0, 0⟩ = .ok () := by
  have hz : f2e2 (0 : ℝ) = 0 := by
    rw [f2e2, if_pos (Or.inl (by simpa using EPS_pos))]
  have hz2 : a_b2e2 a a = 0 := by
    rw [a_b2e2, if_pos (Or.inr (Or.inr (by simpa using EPS_pos)))]
  rw [ellipsoidChecks]
  rw [if_neg (by simp), if_neg (by simp)]
  rw [if_neg (by simp [div_self ha, TOL_nonneg, not_lt.mpr TOL_nonneg])]
  rw [if_neg (by simp [hz, hz2, not_lt.mpr TOL_nonneg])]
  rw [if_neg (by simp [e2val, not_lt.mpr TOL_nonneg])]
  rw [if_neg (by simp [e12val, b2_a2val, not_lt.mpr EPS_pos.le])]

/-- `Ellipsoid(a, b)` with positive radii and vanishing flattening
constructs the spherical model `(a, a, 0, 0)`. -/
theorem ellipsoidInit_spherical {a b : ℝ} (ha : 0 < a) (hb : 0 < b)
    (hf : a_b2f a b = 0) :
    ellipsoidInit a (some b) none = .ok ⟨a, a, 0, 0⟩ := by
  have hfa : ellipsoidFields a (some b) none = .ok ⟨a, a, 0, 0⟩ := by
    rw [ellipsoidFields, if_neg (not_le.mpr ha)]
    rw [if_neg hb.ne', if_neg (not_le.mpr hb)]
    exact ellipsoidFields2_spherical _ hf
  simp [ellipsoidInit, hfa, ellipsoidChecks_spherical ha.ne']

/-! ### C5: spherical collapse -/

/-- C5: constructing an `Ellipsoid` whose flattening satisfies
`|f| < EPS` succeeds and yields `f = 0`, `f_ = 0`, `b = a`,
`isSpherical` and `e2 = 0`. -/
theorem ellipsoid_spherical_collapse (a b : ℝ) (ha : 0 < a) (hb : 0 < b)
    (hf : |a_b2f a b| < EPS) :
    ellipsoidInit a (some b) none = .ok ⟨a, a, 0, 0⟩
  ∧ (Ellipsoid.mk a a 0 0).f = 0
  ∧ (Ellipsoid.mk a a 0 0).f_ = 0
  ∧ (Ellipsoid.mk a a 0 0).b = (Ellipsoid.mk a a 0 0).a
  ∧ (Ellipsoid.mk a a 0 0).isSpherical
  ∧ e2val ⟨a, a, 0, 0⟩ = 0 := by
  refine ⟨ellipsoidInit_spherical ha hb (a_b2f_eq_zero hf), rfl, rfl, rfl, rfl, ?_⟩
  rw [e2val, if_pos rfl]

/-- C5 witness: the unit sphere `Ellipsoid(1, 1)`. -/
theorem ellipsoid_spherical_collapse_witness :
    ((0 : ℝ) < 1 ∧ |a_b2f 1 1| < EPS)
  ∧ (ellipsoidInit 1 (some 1) none = .ok ⟨1, 1, 0, 0⟩
     ∧ (Ellipsoid.mk 1 1 0 0).f = 0
     ∧ (Ellipsoid.mk 1 1 0 0).f_ = 0
     ∧ (Ellipsoid.mk 1 1 0 0).b = (Ellipsoid.mk 1 1 0 0).a
     ∧ (Ellipsoid.mk 1 1 0 0).isSpherical
     ∧ e2val ⟨1, 1, 0, 0⟩ = 0) := by
  have h11 : a_b2f (1 : ℝ) 1 = 0 := by
    rw [a_b2f, if_pos]
    rw [if_pos (Or.inr (Or.inr (by simpa using EPS_pos)))]
    exact Or.inl (by simpa using EPS_pos)
  have hf : |a_b2f (1 : ℝ) 1| < EPS := by
    rw [h11]
    simpa using EPS_pos
  exact ⟨⟨one_pos, hf⟩, ellipsoid_spherical_collapse 1 1 one_pos one_pos hf⟩

/-! ### C6: invalid radii and degenerate flattening -/

/-- C6 counterexample: with `a = 2` and `b = EPS` (both positive radii)
the raw flattening `(a - b)/a = 1 - EPS/2` exceeds `1 - EPS`, yet
construction succeeds as a sphere instead of failing: `a_b2f` snaps an
invalid flattening to `0`, so the `f > EPS1` check in `__init__` never
fires. -/
theorem ellipsoid_degenerate_cex :
    EPS1 < ((2 : ℝ) - EPS) / 2
  ∧ ellipsoidInit 2 (some EPS) none = .ok ⟨2, 2, 0, 0⟩ := by
  have h : EPS1 < ((2 : ℝ) - EPS) / 2 := by
    norm_num [EPS, EPS1]
  exact ⟨h, ellipsoidInit_spherical two_pos EPS_pos (a_b2f_snap h)⟩

/-- C6 amended: construction fails with a ValueError-kind error when the
equatorial radius is non-positive or when a supplied nonzero polar radius
is negative; a raw flattening `(a - b)/a > 1 - EPS`, however, is snapped
to `0` so construction succeeds with the spherical model `(a, a, 0, 0)`
instead of failing. -/
theorem ellipsoid_invalid_inputs (a b : ℝ) (b? f_? : Option ℝ) :
    (a ≤ 0 → ellipsoidInit a b? f_? = .error .value)
  ∧ (0 < a → b < 0 → ellipsoidInit a (some b) f_? = .error .value)
  ∧ (0 < a → 0 < b → EPS1 < (a - b) / a →
      ellipsoidInit a (some b) none = .ok ⟨a, a, 0, 0⟩) := by
  refine ⟨?_, ?_, ?_⟩
  · intro h
    simp [ellipsoidInit, ellipsoidFields, h]
  · intro ha hb
    simp [ellipsoidInit, ellipsoidFields, not_le.mpr ha, hb.ne, hb.le]
  · intro ha hb hf
    exact ellipsoidInit_spherical ha hb (a_b2f_snap hf)

/-- C6 witness: `a = -1` rejected, `b = -1` rejected, and the degenerate
pair `(2, EPS)` accepted spherically. -/
theorem ellipsoid_invalid_inputs_witness :
    ((-1 : ℝ) ≤ 0 ∧ ellipsoidInit (-1) none none = .error .value)
  ∧ ((0 : ℝ) < 2 ∧ (-1 : ℝ) < 0
     ∧ ellipsoidInit 2 (some (-1)) none = .error .value)
  ∧ ((0 : ℝ) < 2 ∧ (0 : ℝ) < EPS ∧ EPS1 < ((2 : ℝ) - EPS) / 2
     ∧ ellipsoidInit 2 (some EPS) none = .ok ⟨2, 2, 0, 0⟩) := by
  have hd : EPS1 < ((2 : ℝ) - EPS) / 2 := by
    norm_num [EPS, EPS1]
  exact ⟨⟨by norm_num,
          (ellipsoid_invalid_inputs (-1) 0 none none).1 (by norm_num)⟩,
         ⟨two_pos, by norm_num,
          (ellipsoid_invalid_inputs 2 (-1) none none).2.1 two_pos (by norm_num)⟩,
         ⟨two_pos, EPS_pos, hd,
          (ellipsoid_invalid_inputs 2 EPS none none).2.2 two_pos EPS_pos hd⟩⟩

/-! ### C7: registration happens before the cross-checks -/

/-- `a_b2f(2, 1) = 1/2`: an ordinary oblate flattening, not snapped. -/
theorem a_b2f_two_one : a_b2f (2 : ℝ) 1 = 1 / 2 := by
  simp only [a_b2f]
  norm_num [EPS, EPS1, abs_of_pos]

/-- The value stage accepts `Ellipsoid(2, 1, f_=3)` even though the
supplied inverse flattening `3` is inconsistent with `f = 1/2`. -/
theorem ellipsoidFields_faulty :
    ellipsoidFields 2 (some 1) (some 3) = .ok ⟨2, 1, 1 / 2, 3⟩ := by
  rw [ellipsoidFields, if_neg (by norm_num : ¬(2 : ℝ) ≤ 0)]
  rw [if_neg (by norm_num : ¬(1 : ℝ) = 0), if_neg (by norm_num : ¬(1 : ℝ) ≤ 0)]
  simp only [ellipsoidFields2, a_b2f_two_one]
  norm_num [EPS, EPS1, abs_of_pos]

/-- The `1/f` vs `f_` cross-check fails on the inconsistent model
`(2, 1, 1/2, 3)`. -/
theorem ellipsoidChecks_faulty :
    ellipsoidChecks ⟨2, 1, 1 / 2, 3⟩ = .error .assert := by
  rw [ellipsoidChecks, if_pos]
  refine ⟨⟨by norm_num, by norm_num⟩, ?_⟩
  have h : |(3 : ℝ) - 1 / (1 / 2)| = 1 := by
    norm_num
  calc TOL < 1 := TOL_lt_one
    _ = |(3 : ℝ) - 1 / (1 / 2)| := h.symm

/-- C7 counterexample: constructing the inconsistent `Ellipsoid(2, 1,
f_=3)` under a fresh name fails the cross-check assertion, yet the name
is left registered: the registry is not unchanged on assertion failure,
because `_register` runs before the `_assert` calls. -/
theorem ellipsoid_register_cex :
    ellipsoidInitReg [] "Faulty" 2 (some 1) (some 3) =
      (.error .assert, ["Faulty"])
  ∧ ("Faulty" :: ([] : List String)) ≠ [] := by
  refine ⟨?_, by simp⟩
  simp only [ellipsoidInitReg, ellipsoidFields_faulty]
  rw [if_neg (by simp : "Faulty" ∉ ([] : List String))]
  rw [ellipsoidChecks_faulty]

/-- C7 amended: registration happens before the cross-checks, so whenever
construction reaches the check stage with a fresh name the name is added
to the registry, whether or not a cross-check assertion fails. -/
theorem ellipsoid_register_before_checks (reg : List String) (nm : String)
    (a : ℝ) (b? f_? : Option ℝ) (E : Ellipsoid)
    (hE : ellipsoidFields a b? f_? = .ok E) (hnm : nm ∉ reg) :
    (ellipsoidInitReg reg nm a b? f_?).2 = nm :: reg := by
  simp only [ellipsoidInitReg, hE]
  rw [if_neg hnm]
  cases h : ellipsoidChecks E <;> simp [h]

/-- C7 witness: the inconsistent `Ellipsoid(2, 1, f_=3)` registered in an
empty registry. -/
theorem ellipsoid_register_before_checks_witness :
    ellipsoidFields 2 (some 1) (some 3) = .ok ⟨2, 1, 1 / 2, 3⟩
  ∧ "Faulty" ∉ ([] : List String)
  ∧ (ellipsoidInitReg [] "Faulty" 2 (some 1) (some 3)).2 = ["Faulty"] :=
  ⟨ellipsoidFields_faulty, by simp,
   ellipsoid_register_before_checks [] "Faulty" 2 (some 1) (some 3)
     ⟨2, 1, 1 / 2, 3⟩ ellipsoidFields_faulty (by simp)⟩

/-! ### C8: the IUGG mean radius R1 -/

/-- `a_b2f(1, 2) = -1`: a prolate flattening, not snapped. -/
theorem a_b2f_one_two : a_b2f (1 : ℝ) 2 = -1 := by
  simp only [a_b2f]
  norm_num [EPS, EPS1, abs_of_pos, abs_of_neg]

/-- `f2f_(-1) = -1`: the prolate inverse flattening survives both
snaps. -/
theorem f2f_neg_one : f2f_ (-1 : ℝ) = -1 := by
  simp only [f2f_]
  norm_num [EPS, EPS1, abs_of_neg]

/-- The value stage accepts the prolate `Ellipsoid(1, 2)`. -/
theorem ellipsoidFields_prolate :
    ellipsoidFields 1 (some 2) none = .ok ⟨1, 2, -1, -1⟩ := by
  rw [ellipsoidFields, if_neg (by norm_num : ¬(1 : ℝ) ≤ 0)]
  rw [if_neg (by norm_num : ¬(2 : ℝ) = 0), if_neg (by norm_num : ¬(2 : ℝ) ≤ 0)]
  rw [a_b2f_one_two, f2f_neg_one]
  simp only [ellipsoidFields2, a_b2f_one_two]
  norm_num [EPS, EPS1, abs_of_neg]

/-- The `_assert` cross-checks all pass on the prolate model
`(1, 2, -1, -1)`. -/
theorem ellipsoidChecks_prolate :
    ellipsoidChecks ⟨1, 2, -1, -1⟩ = .ok () := by
  have hTOL := not_lt.mpr TOL_nonneg
  have hEPS := not_lt.mpr EPS_pos.le
  have he2 : f2e2 (-1 : ℝ) = -3 := by
    rw [f2e2, if_neg (by norm_num [EPS, EPS1, abs_of_neg])]
    norm_num
  have ha2 : a_b2e2 (1 : ℝ) 2 = -3 := by
    rw [a_b2e2, if_neg (by norm_num [EPS, abs_of_neg])]
    norm_num
  have hv : e2val ⟨1, 2, -1, -1⟩ = -3 := by
    rw [e2val, if_neg (by norm_num)]
    exact he2
  have h612 : e12val ⟨1, 2, -1, -1⟩ = 4 := by
    rw [e12val, if_neg (by norm_num), hv]
    norm_num
  have h6b : b2_a2val ⟨1, 2, -1, -1⟩ = 4 := by
    rw [b2_a2val, if_neg (by norm_num), b_aval, if_neg (by norm_num)]
    norm_num
  simp only [ellipsoidChecks]
  split_ifs with h1 h2 h3 h4 h5
  · norm_num at h1
    exact hTOL h1
  · norm_num at h2
    exact hTOL h2
  · rw [he2, ha2] at h3
    norm_num at h3
    exact hTOL h3
  · rw [hv] at h4
    norm_num at h4
    exact hTOL h4
  · rw [h612, h6b] at h5
    norm_num at h5
    exact hEPS h5
  · rfl

/-- The prolate `Ellipsoid(1, 2)` constructs successfully. -/
theorem ellipsoidInit_prolate :
    ellipsoidInit 1 (some 2) none = .ok ⟨1, 2, -1, -1⟩ := by
  simp only [ellipsoidInit, ellipsoidFields_prolate, ellipsoidChecks_prolate]

/-- C8 counterexample: for the validly constructed prolate ellipsoid with
`a = 1`, `b = 2`, the code computes `R1 = (2·b + a)/3 = 5/3`, not the
claimed `(2·a + b)/3 = 4/3`, because `_f_late` swaps the axes for a
prolate model. -/
theorem R1_prolate_cex :
    ellipsoidInit 1 (some 2) none = .ok ⟨1, 2, -1, -1⟩
  ∧ R1val ⟨1, 2, -1, -1⟩ ≠ (2 * (1 : ℝ) + 2) / 3 := by
  refine ⟨ellipsoidInit_prolate, ?_⟩
  rw [R1val, if_neg (by norm_num), if_pos (by norm_num :
    (⟨1, 2, -1, -1⟩ : Ellipsoid).f < 0)]
  norm_num

/-- A model accepted by stage one is either a spherical collapse
(`b = a`, `f = 0`) or has nonzero flattening. -/
theorem ellipsoidFields2_ok_cases {a b f_ : ℝ} {E : Ellipsoid}
    (h : ellipsoidFields2 a b f_ = .ok E) :
    (E.b = E.a ∧ E.f = 0) ∨ E.f ≠ 0 := by
  simp only [ellipsoidFields2] at h
  split_ifs at h with h1 h2
  · have := Except.ok.inj h
    subst this
    exact Or.inl ⟨rfl, rfl⟩
  · have := Except.ok.inj h
    subst this
    refine Or.inr fun h0 => h1 (Or.inl ?_)
    rw [show (⟨a, b, a_b2f a b, f_⟩ : Ellipsoid).f = a_b2f a b from rfl] at h0
    rw [h0]
    simpa using EPS_pos

/-- The `f_`-arm of stage one also yields a collapse or a nonzero
flattening. -/
theorem ellipsoidFieldsF_ok_cases {a : ℝ} {f_? : Option ℝ} {E : Ellipsoid}
    (h : ellipsoidFieldsF a f_? = .ok E) :
    (E.b = E.a ∧ E.f = 0) ∨ E.f ≠ 0 := by
  cases f_? with
  | none => exact ellipsoidFields2_ok_cases h
  | some f_ =>
    simp only [ellipsoidFieldsF] at h
    split_ifs at h with h1 h2
    · exact ellipsoidFields2_ok_cases h
    · exact ellipsoidFields2_ok_cases h

/-- Every model accepted by the value stage of `__init__` is a spherical
collapse or has nonzero flattening. -/
theorem ellipsoidFields_ok_cases {a : ℝ} {b? f_? : Option ℝ} {E : Ellipsoid}
    (h : ellipsoidFields a b? f_? = .ok E) :
    (E.b = E.a ∧ E.f = 0) ∨ E.f ≠ 0 := by
  cases b? with
  | none =>
    simp only [ellipsoidFields] at h
    split_ifs at h with h1
    · exact ellipsoidFieldsF_ok_cases h
  | some b =>
    simp only [ellipsoidFields] at h
    split_ifs at h with h1 h2 h3
    · exact ellipsoidFieldsF_ok_cases h
    · exact ellipsoidFields2_ok_cases h

/-- A successful `__init__` implies a successful value stage with the
same resulting model. -/
theorem ellipsoidInit_ok_fields {a : ℝ} {b? f_? : Option ℝ} {E : Ellipsoid}
    (h : ellipsoidInit a b? f_? = .ok E) :
    ellipsoidFields a b? f_? = .ok E := by
  rw [ellipsoidInit] at h
  cases hf : ellipsoidFields a b? f_? with
  | error e =>
    rw [hf] at h
    exact absurd h (by simp)
  | ok F =>
    rw [hf] at h
    dsimp only at h
    cases hc : ellipsoidChecks F with
    | error e =>
      rw [hc] at h
      exact absurd h (by simp)
    | ok u =>
      rw [hc] at h
      exact h

/-- C8 amended: for every validly constructed ellipsoid, `R1` equals
`(2a + b)/3` for oblate and spherical models, but `(a + 2b)/3` for
prolate models (the axes are swapped by `_f_late`). -/
theorem R1_mean_radius (a : ℝ) (b? f_? : Option ℝ) (E : Ellipsoid)
    (h : ellipsoidInit a b? f_? = .ok E) :
    R1val E =
      (if E.f < 0 then (E.a + 2 * E.b) / 3 else (2 * E.a + E.b) / 3) := by
  rcases ellipsoidFields_ok_cases (ellipsoidInit_ok_fields h) with ⟨hb, hf⟩ | hf
  · rw [R1val, hf, hb]
    simp only [lt_irrefl, if_false]
    ring
  · rcases lt_trichotomy E.f 0 with h0 | h0 | h0
    · rw [R1val, if_neg (by linarith), if_pos h0, if_pos h0]
      ring
    · exact absurd h0 hf
    · rw [R1val, if_pos h0, if_neg (by linarith)]
      ring

/-- C8 witness: the amended formula applied to the prolate
`Ellipsoid(1, 2)`. -/
theorem R1_mean_radius_witness :
    ellipsoidInit 1 (some 2) none = .ok ⟨1, 2, -1, -1⟩
  ∧ R1val ⟨1, 2, -1, -1⟩ =
      (if (⟨1, 2, -1, -1⟩ : Ellipsoid).f < 0
       then ((⟨1, 2, -1, -1⟩ : Ellipsoid).a +
              2 * (⟨1, 2, -1, -1⟩ : Ellipsoid).b) / 3
       else (2 * (⟨1, 2, -1, -1⟩ : Ellipsoid).a +
              (⟨1, 2, -1, -1⟩ : Ellipsoid).b) / 3) :=
  ⟨ellipsoidInit_prolate,
   R1_mean_radius 1 (some 2) none ⟨1, 2, -1, -1⟩ ellipsoidInit_prolate⟩

/-! ### C9: radii of curvature are always defined -/

/-- `f2e2` never reaches `1`: snapped flattenings give `0` and surviving
ones satisfy `f ≤ EPS1 < 1`, so `f(2-f) = 1 - (1-f)² < 1`. -/
theorem f2e2_lt_one (f : ℝ) : f2e2 f < 1 := by
  rw [f2e2]
  split_ifs with h
  · norm_num
  · push_neg at h
    have h2 : EPS ≤ 1 - f := by
      have := h.2
      rw [EPS1] at this
      linarith
    have h3 : 0 < 1 - f := lt_of_lt_of_le EPS_pos h2
    nlinarith [mul_pos h3 h3]

/-- On every model the memoized first eccentricity squared is below 1. -/
theorem e2val_lt_one (E : Ellipsoid) : e2val E < 1 := by
  rw [e2val]
  split_ifs with h
  · norm_num
  · exact f2e2_lt_one E.f

/-- C9: for every model and latitude `|φ| ≤ π/2`, the radicand
`W² = 1 - e2·sin²φ` computed by `roc2_` is strictly positive — so the
square root is of a non-negative number and no division by zero occurs —
and `roc2_` succeeds, returning `(0, 0)` when `W² < EPS` and otherwise
the pair `(m, n)` with `n = a/sqrt(W²)` and `m = n·e12/W²`. -/
theorem roc2_safe (E : Ellipsoid) (φ : ℝ) (hφ : |φ| ≤ Real.pi / 2) :
    0 < W2 E φ
  ∧ roc2_ E φ = .ok (if W2 E φ < EPS then (0, 0)
      else (E.a / Real.sqrt (W2 E φ) * e12val E / W2 E φ,
            E.a / Real.sqrt (W2 E φ))) := by
  have habs2 : Real.sin |φ| ^ 2 = Real.sin φ ^ 2 := by
    rcases abs_cases φ with ⟨h1, _⟩ | ⟨h1, _⟩ <;> rw [h1]
    rw [Real.sin_neg]
    ring
  have hs_eq : (if |φ| < Real.pi / 2 then Real.sin |φ| else 1) ^ 2 =
      Real.sin φ ^ 2 := by
    split_ifs with h
    · exact habs2
    · have h2 : |φ| = Real.pi / 2 := le_antisymm hφ (not_lt.mp h)
      rw [← habs2, h2, Real.sin_pi_div_two]
  have hW2pos : 0 < W2 E φ := by
    rw [W2]
    rcases le_or_lt (e2val E) 0 with he | he
    · nlinarith [sq_nonneg (Real.sin φ)]
    · nlinarith [Real.sin_sq_le_one φ, e2val_lt_one E]
  refine ⟨hW2pos, ?_⟩
  simp only [roc2_]
  rw [hs_eq]
  rw [show (1 - e2val E * Real.sin φ ^ 2) = W2 E φ from rfl]
  rw [if_neg (not_lt.mpr hW2pos.le)]
  split_ifs <;> rfl

/-- C9 witness: the unit sphere at latitude `0`. -/
theorem roc2_safe_witness :
    |(0 : ℝ)| ≤ Real.pi / 2
  ∧ (0 < W2 ⟨1, 1, 0, 0⟩ 0
     ∧ roc2_ ⟨1, 1, 0, 0⟩ 0 =
        .ok (if W2 ⟨1, 1, 0, 0⟩ 0 < EPS then (0, 0)
          else ((⟨1, 1, 0, 0⟩ : Ellipsoid).a / Real.sqrt (W2 ⟨1, 1, 0, 0⟩ 0) *
                  e12val ⟨1, 1, 0, 0⟩ / W2 ⟨1, 1, 0, 0⟩ 0,
                (⟨1, 1, 0, 0⟩ : Ellipsoid).a /
                  Real.sqrt (W2 ⟨1, 1, 0, 0⟩ 0)))) := by
  have h0 : |(0 : ℝ)| ≤ Real.pi / 2 := by
    rw [abs_zero]
    positivity
  exact ⟨h0, roc2_safe ⟨1, 1, 0, 0⟩ 0 h0⟩

/-! ### C10: eccentricity sign conventions -/

/-- C10: for every model, including prolate ones with negative `e2`, the
first eccentricity `e = sqrt(abs(e2))` is non-negative, and the signed
eccentricity `es = copysign(e, f)` is `e` with the sign of the
flattening. -/
theorem e_nonneg_es_signed (E : Ellipsoid) :
    0 ≤ eVal E ∧ esVal E = (if E.f < 0 then -(eVal E) else eVal E) := by
  have h : 0 ≤ eVal E := by
    rw [eVal]
    split_ifs
    · exact le_refl 0
    · exact Real.sqrt_nonneg _
  refine ⟨h, ?_⟩
  rw [esVal, copysign]
  split_ifs with hf <;> rw [abs_of_nonneg h]

end

end PyGeodesy
